import Mathlib

/-!
Shallow embedding of the students_app Django application
(models, CSV loader management command, serializers, analytics views)
together with proofs about its documented behaviour.

Numbers that the Python code handles as floats are modelled as rationals.
Rational arithmetic is expressed through kernel-evaluable helper
operations built on mkRat and Rat.divInt; each helper is proved equal to
the corresponding field operation (qadd_eq, qmul_eq, qdiv_eq), so the
definitions below compute and still denote the textbook operations.
-/

/-! ## Python string primitives -/

/-- Model of the Python str.strip method: drop whitespace from both ends. -/
def pyStrip (s : String) : String :=
  ⟨((s.data.dropWhile Char.isWhitespace).reverse.dropWhile Char.isWhitespace).reverse⟩

/-- Lowercase mapping of one character (the str.lower tables).  Exact on
ASCII and on the non-ASCII letters this development evaluates: the Kelvin
sign (U+212A) lowers to k, the capital sharp s (U+1E9E) lowers to U+00DF,
and letters without a lowercase form (such as the long s U+017F) stay
unchanged.  The rest of the Unicode lowercase table is not modelled
(identity); no theorem below evaluates the mapping there. -/
def pyCharLower (c : Char) : List Char :=
  if c.toNat = 0x212A then ['k']
  else if c.toNat = 0x1E9E then [Char.ofNat 0xDF]
  else [c.toLower]

/-- Case-fold mapping of one character (the str.casefold tables).  Exact
on ASCII and on the letters this development evaluates: the long s
(U+017F) folds to s, the sharp s (U+00DF) and its capital (U+1E9E) fold
to ss, the Kelvin sign (U+212A) folds to k.  The rest of the Unicode
folding table is not modelled (identity); no theorem below evaluates the
mapping there.  On ASCII data folding and lowering coincide
(pyCasefold_eq_pyLower). -/
def pyCharFold (c : Char) : List Char :=
  if c.toNat = 0x212A then ['k']
  else if c.toNat = 0x1E9E then ['s', 's']
  else if c.toNat = 0xDF then ['s', 's']
  else if c.toNat = 0x17F then ['s']
  else [c.toLower]

/-- Model of the Python str.lower method. -/
def pyLower (s : String) : String := ⟨(s.data.map pyCharLower).flatten⟩

/-- Model of the Python str.casefold method. -/
def pyCasefold (s : String) : String := ⟨(s.data.map pyCharFold).flatten⟩

/-- Lexicographic strict order on character lists by code point; this is
the order SQL BINARY collation induces on UTF-8 encoded text. -/
def lexLt : List Char → List Char → Bool
  | [], [] => false
  | [], _ :: _ => true
  | _ :: _, [] => false
  | a :: as, b :: bs =>
      if a.toNat < b.toNat then true
      else if b.toNat < a.toNat then false
      else lexLt as bs

/-- Strict string order used by SQL ORDER BY on text columns. -/
def strLt (a b : String) : Bool := lexLt a.data b.data

/-- Reflexive closure of strLt, as a Bool. -/
def strLe (a b : String) : Bool := !(strLt b a)

/-- The SQL text order as a relation, for use with insertionSort. -/
def strLeP (a b : String) : Prop := strLe a b = true

instance : DecidableRel strLeP := fun a b => instDecidableEqBool (strLe a b) true

theorem lexLt_asymm (a : List Char) : ∀ b, lexLt a b = true → lexLt b a = false := by
  induction a with
  | nil =>
    intro b h
    cases b with
    | nil => simp [lexLt] at h
    | cons y ys => simp [lexLt]
  | cons x xs ih =>
    intro b h
    cases b with
    | nil => simp [lexLt] at h
    | cons y ys =>
      simp only [lexLt] at h ⊢
      by_cases h1 : x.toNat < y.toNat
      · have h2 : ¬ y.toNat < x.toNat := by omega
        simp [h1, h2]
      · by_cases h2 : y.toNat < x.toNat
        · simp [h1, h2] at h
        · simp only [h1, h2, if_false] at h ⊢
          exact ih ys h

theorem lexLt_neg_trans (a : List Char) :
    ∀ b c, lexLt a b = false → lexLt b c = false → lexLt a c = false := by
  induction a with
  | nil =>
    intro b c hab hbc
    cases b with
    | nil =>
      cases c with
      | nil => simp [lexLt]
      | cons z zs => simp [lexLt] at hbc
    | cons y ys => simp [lexLt] at hab
  | cons x xs ih =>
    intro b c hab hbc
    cases b with
    | nil =>
      cases c with
      | nil => simp [lexLt]
      | cons z zs => simp [lexLt] at hbc
    | cons y ys =>
      cases c with
      | nil => simp [lexLt]
      | cons z zs =>
        simp only [lexLt] at hab hbc ⊢
        by_cases hxy : x.toNat < y.toNat
        · simp [hxy] at hab
        · by_cases hyz : y.toNat < z.toNat
          · simp [hyz] at hbc
          · have hxz : ¬ x.toNat < z.toNat := by omega
            simp only [hxz, if_false]
            by_cases hzx : z.toNat < x.toNat
            · simp [hzx]
            · simp only [hzx, if_false]
              have hyx : ¬ y.toNat < x.toNat := by omega
              have hzy : ¬ z.toNat < y.toNat := by omega
              simp only [hxy, hyx, if_false] at hab
              simp only [hyz, hzy, if_false] at hbc
              exact ih ys zs hab hbc

theorem strLeP_total (a b : String) : strLeP a b ∨ strLeP b a := by
  by_cases h : lexLt b.data a.data = true
  · exact Or.inr (by simp [strLeP, strLe, strLt, lexLt_asymm _ _ h])
  · exact Or.inl (by simp only [strLeP, strLe, strLt, Bool.not_eq_true']; simpa using h)

theorem strLeP_trans {a b c : String} : strLeP a b → strLeP b c → strLeP a c := by
  intro hab hbc
  simp only [strLeP, strLe, strLt, Bool.not_eq_true', Bool.not_eq_true] at hab hbc ⊢
  exact lexLt_neg_trans _ _ _ hbc hab

instance : IsTotal String strLeP := ⟨strLeP_total⟩

instance : IsTrans String strLeP := ⟨fun _ _ _ => strLeP_trans⟩

/-! ## Deduplication keeping the first occurrence (Python set/dict order) -/

/-- Keep the first occurrence of every element, in encounter order. -/
def firstDedup [DecidableEq α] (l : List α) : List α :=
  l.foldl (fun acc x => if x ∈ acc then acc else acc ++ [x]) []

theorem firstDedup_aux_nodup [DecidableEq α] (l : List α) :
    ∀ acc : List α, acc.Nodup →
      (l.foldl (fun acc x => if x ∈ acc then acc else acc ++ [x]) acc).Nodup := by
  induction l with
  | nil => intro acc h; simpa using h
  | cons x t ih =>
    intro acc h
    simp only [List.foldl_cons]
    by_cases hx : x ∈ acc
    · simpa [hx] using ih acc h
    · have : (acc ++ [x]).Nodup := by
        rw [List.nodup_append]
        refine ⟨h, List.nodup_singleton x, ?_⟩
        intro y hy hyx
        simp only [List.mem_singleton] at hyx
        exact hx (hyx ▸ hy)
      simpa [hx] using ih _ this

theorem firstDedup_nodup [DecidableEq α] (l : List α) : (firstDedup l).Nodup :=
  firstDedup_aux_nodup l [] List.nodup_nil

/-! ## Python numeric primitives over rationals -/

/-- Numeric value of a digit string. -/
def digitsToNat (cs : List Char) : Nat :=
  cs.foldl (fun a c => a * 10 + (c.toNat - 48)) 0

/-- Value of an unsigned decimal literal: digits with an optional single
dot, at least one digit present.  This is the fragment of the Python
float grammar the CSV data and query strings exercise (no exponents,
no inf or nan, no underscores). -/
def decimalCore (cs : List Char) : Option ℚ :=
  let intPart := cs.takeWhile Char.isDigit
  let rest := cs.dropWhile Char.isDigit
  match rest with
  | [] => if intPart.isEmpty then none else some (mkRat (digitsToNat intPart) 1)
  | '.' :: frac =>
      if frac.all Char.isDigit && (!intPart.isEmpty || !frac.isEmpty) then
        some (mkRat (digitsToNat (intPart ++ frac)) (10 ^ frac.length))
      else none
  | _ => none

/-- Model of the Python float constructor on decimal literals: surrounding
whitespace is ignored, an optional sign precedes the digits. -/
def pyFloat? (s : String) : Option ℚ :=
  match (pyStrip s).data with
  | '-' :: cs => (decimalCore cs).map Neg.neg
  | '+' :: cs => decimalCore cs
  | cs => decimalCore cs

/-- Model of the Python int constructor: surrounding whitespace ignored,
optional sign, digits. -/
def pyInt? (s : String) : Option Int :=
  match (pyStrip s).data with
  | '-' :: cs =>
      if !cs.isEmpty && cs.all Char.isDigit then some (-(digitsToNat cs : Int)) else none
  | '+' :: cs =>
      if !cs.isEmpty && cs.all Char.isDigit then some ((digitsToNat cs : Int)) else none
  | cs =>
      if !cs.isEmpty && cs.all Char.isDigit then some ((digitsToNat cs : Int)) else none

/-- Model of the Python round function on rationals (round half to even),
computed on the canonical numerator and denominator. -/
def pythonRound (q : ℚ) : Int :=
  let n := q.num
  let d := (q.den : Int)
  let f := Int.fdiv n d
  let r := n - f * d
  if 2 * r < d then f
  else if d < 2 * r then f + 1
  else if f % 2 = 0 then f else f + 1

/-- Model of Python int applied to a float: truncation toward zero. -/
def pyTrunc (q : ℚ) : Int := Int.tdiv q.num (q.den : Int)

/-! ## Kernel-evaluable rational arithmetic -/

/-- Kernel-evaluable rational addition (proved equal to + in qadd_eq). -/
def qadd (a b : ℚ) : ℚ := mkRat (a.num * b.den + b.num * a.den) (a.den * b.den)

/-- Kernel-evaluable rational multiplication (proved equal to * in qmul_eq). -/
def qmul (a b : ℚ) : ℚ := mkRat (a.num * b.num) (a.den * b.den)

/-- Kernel-evaluable rational division (proved equal to / in qdiv_eq). -/
def qdiv (a b : ℚ) : ℚ := Rat.divInt (a.num * b.den) ((a.den : Int) * b.num)

theorem qadd_eq (a b : ℚ) : qadd a b = a + b := (Rat.add_def' a b).symm

theorem qmul_eq (a b : ℚ) : qmul a b = a * b := by
  rw [qmul, Rat.mul_def, Rat.normalize_eq_mkRat]

theorem qdiv_eq (a b : ℚ) : qdiv a b = a / b := by
  rw [qdiv, Rat.div_def' a b]

/-- Average of a list of rationals; none when the list is empty (the SQL
Avg aggregate over an empty set). -/
def avgQ (l : List ℚ) : Option ℚ :=
  match l with
  | [] => none
  | _ => some (qdiv (l.foldl qadd 0) (mkRat l.length 1))

/-- Model of the analytics helper that rounds a float to 2 decimal digits
(the Python round builtin, half to even). -/
def pyRound2 (q : ℚ) : ℚ := qdiv (mkRat (pythonRound (qmul q (mkRat 100 1))) 1) (mkRat 100 1)

/-! ## contstants.py : enumerations and loader lookup maps -/

namespace Contstants

/-- Trim and casefold, exactly the normalize_str helper of contstants.py. -/
def normalize_str (s : String) : String := pyCasefold (pyStrip s)

/-- Gender enumeration (TextChoices); value holds the stored db value. -/
inductive Gender
  | MALE
  | FEMALE
  | OTHER
deriving DecidableEq

def Gender.value : Gender → String
  | .MALE => "Male"
  | .FEMALE => "Female"
  | .OTHER => "Other"

/-- DailyStudyTime enumeration, in declaration order. -/
inductive DailyStudyTime
  | M0_30
  | M30_60
  | H1_2
  | H2_3
  | H3_4
  | GT4H
deriving DecidableEq

def DailyStudyTime.value : DailyStudyTime → String
  | .M0_30 => "0-30m"
  | .M30_60 => "30-60m"
  | .H1_2 => "1-2h"
  | .H2_3 => "2-3h"
  | .H3_4 => "3-4h"
  | .GT4H => ">4h"

/-- Declaration order of the DailyStudyTime choices. -/
def DailyStudyTime.ordered : List DailyStudyTime :=
  [.M0_30, .M30_60, .H1_2, .H2_3, .H3_4, .GT4H]

inductive StudyPreference
  | MORNING
  | NIGHT
  | ANYTIME
deriving DecidableEq

def StudyPreference.value : StudyPreference → String
  | .MORNING => "Morning"
  | .NIGHT => "Night"
  | .ANYTIME => "Anytime"

inductive MediaVideoTime
  | M0
  | M1_30
  | M30_60
  | M60_90
  | M90_120
  | GT2H
deriving DecidableEq

def MediaVideoTime.value : MediaVideoTime → String
  | .M0 => "0m"
  | .M1_30 => "1-30m"
  | .M30_60 => "30-60m"
  | .M60_90 => "60-90m"
  | .M90_120 => "90-120m"
  | .GT2H => ">2h"

inductive TravelingTime
  | M0_30
  | M30_60
  | M60_90
  | M90_120
  | M120_150
  | M150_180
  | GT3H
deriving DecidableEq

def TravelingTime.value : TravelingTime → String
  | .M0_30 => "0-30m"
  | .M30_60 => "30-60m"
  | .M60_90 => "60-90m"
  | .M90_120 => "90-120m"
  | .M120_150 => "120-150m"
  | .M150_180 => "150-180m"
  | .GT3H => ">3h"

inductive StressLevel
  | GOOD
  | FABULOUS
  | BAD
  | AWFUL
deriving DecidableEq

def StressLevel.value : StressLevel → String
  | .GOOD => "Good"
  | .FABULOUS => "Fabulous"
  | .BAD => "Bad"
  | .AWFUL => "Awful"

/-- The stored db values of the canonical stress enumeration. -/
def stressLevelValues : List String :=
  [StressLevel.GOOD.value, StressLevel.FABULOUS.value,
   StressLevel.BAD.value, StressLevel.AWFUL.value]

inductive FinancialStatus
  | AWFUL
  | BAD
  | GOOD
  | FABULOUS
deriving DecidableEq

def FinancialStatus.value : FinancialStatus → String
  | .AWFUL => "Awful"
  | .BAD => "Bad"
  | .GOOD => "Good"
  | .FABULOUS => "Fabulous"

/-- Association-list model of the Python lookup dicts, in insertion order. -/
def GENDER_MAP : List (String × Gender) :=
  [(normalize_str "Male", .MALE),
   (normalize_str "Female", .FEMALE),
   (normalize_str "Other", .OTHER)]

/-- Maps free text to a DailyStudyTime value plus its minute value. -/
def DAILY_STUDY_TIME_MAP : List (String × DailyStudyTime × Nat) :=
  [(normalize_str "0 - 30 minute", (.M0_30, 15)),
   (normalize_str "30 - 60 minute", (.M30_60, 45)),
   (normalize_str "1 - 2 Hour", (.H1_2, 90)),
   (normalize_str "2 - 3 hour", (.H2_3, 150)),
   (normalize_str "3 - 4 hour", (.H3_4, 210)),
   (normalize_str "More Than 4 hour", (.GT4H, 270))]

def STUDY_PREFERENCE_MAP : List (String × StudyPreference) :=
  [(normalize_str "Morning", .MORNING),
   (normalize_str "Night", .NIGHT),
   (normalize_str "Anytime", .ANYTIME)]

def MEDIA_VIDEO_TIME_MAP : List (String × MediaVideoTime × Nat) :=
  [(normalize_str "0 Minute", (.M0, 0)),
   (normalize_str "1 - 30 Minute", (.M1_30, 15)),
   (normalize_str "30 - 60 Minute", (.M30_60, 45)),
   (normalize_str "1 - 1.30 hour", (.M60_90, 75)),
   (normalize_str "1.30 - 2 hour", (.M90_120, 105)),
   (normalize_str "More than 2 hour", (.GT2H, 150))]

def TRAVELING_TIME_MAP : List (String × TravelingTime × Nat) :=
  [(normalize_str "0 - 30 minutes", (.M0_30, 15)),
   (normalize_str "30 - 60 minutes", (.M30_60, 45)),
   (normalize_str "1 - 1.30 hour", (.M60_90, 75)),
   (normalize_str "1.30 - 2 hour", (.M90_120, 105)),
   (normalize_str "2 - 2.30 hour", (.M120_150, 135)),
   (normalize_str "2.30 - 3 hour", (.M150_180, 165)),
   (normalize_str "More than 3 hour", (.GT3H, 195))]

def STRESS_LEVEL_MAP : List (String × StressLevel) :=
  [(normalize_str "Awful", .AWFUL),
   (normalize_str "Bad", .BAD),
   (normalize_str "Good", .GOOD),
   (normalize_str "fabulous", .FABULOUS)]

def FINANCIAL_STATUS_MAP : List (String × FinancialStatus) :=
  [(normalize_str "Awful", .AWFUL),
   (normalize_str "Bad", .BAD),
   (normalize_str "Good", .GOOD),
   (normalize_str "Fabulous", .FABULOUS)]

/-- Dictionary probe: first entry whose key matches, KeyError otherwise. -/
def mapLookup (m : List (String × α)) (k : String) : Except String α :=
  match m.find? (fun p => p.1 == k) with
  | some p => Except.ok p.2
  | none => Except.error ("KeyError: " ++ k)

end Contstants

/-! ## load_students.py : the CSV bulk loader -/

namespace Loader

open Contstants

/-- Boolean cell parser of the loader: strip+casefold, then a fixed token
table; any other token raises ValueError. -/
def parse_bool (value : String) : Except String Bool :=
  let v := pyCasefold (pyStrip value)
  if v ∈ ["yes", "y", "true", "1"] then Except.ok true
  else if v ∈ ["no", "n", "false", "0"] then Except.ok false
  else Except.error ("Invalid boolean value: " ++ value)

/-- Integer cell parser: int(str(value).strip()). -/
def parse_int (value : String) : Except String Int :=
  match pyInt? (pyStrip value) with
  | some n => Except.ok n
  | none => Except.error ("invalid literal for int: " ++ value)

/-- Float cell parser: float(str(value).strip()). -/
def parse_float (value : String) : Except String ℚ :=
  match pyFloat? (pyStrip value) with
  | some q => Except.ok q
  | none => Except.error ("could not convert string to float: " ++ value)

/-- Percent parser: strip, drop every percent sign, strip, int(float(s)). -/
def parse_percent (value : String) : Except String Int :=
  let s := pyStrip value
  let s := pyStrip ⟨s.data.filter (fun c => c ≠ '%')⟩
  match pyFloat? s with
  | some q => Except.ok (pyTrunc q)
  | none => Except.error ("could not convert string to float: " ++ value)

/-- Height parser: h = int(round(float(value.strip()))), range check 50..250. -/
def parse_height_cm (value : String) : Except String Int := do
  let q ← parse_float value
  let h := pythonRound q
  if 50 ≤ h ∧ h ≤ 250 then pure h
  else Except.error ("Unrealistic height_cm: " ++ value)

/-- Weight parser: w = int(round(float(value.strip()))), range check 20..300. -/
def parse_weight_kg (value : String) : Except String Int := do
  let q ← parse_float value
  let w := pythonRound q
  if 20 ≤ w ∧ w ≤ 300 then pure w
  else Except.error ("Unrealistic weight_kg: " ++ value)

/-- One CSV data row, keyed by the fixed required columns (after header
normalisation the loader reads each cell by column name). -/
structure Row where
  certification_course : String
  gender : String
  department : String
  height : String
  weight : String
  mark_10th : String
  mark_12th : String
  college_mark : String
  hobby : String
  daily_studying_time : String
  prefer_to_study_in : String
  salary_expectation : String
  likes_degree : String
  willingness : String
  social_media_video : String
  travelling_time : String
  stress_level : String
  financial_status : String
  part_time_job : String
deriving DecidableEq

/-- Fields of the Student model instance the loader builds per row.
Department and Hobby records are represented by their unique name. -/
structure StudentRec where
  gender : Gender
  department : String
  height_cm : Int
  weight_kg : Int
  hobby : String
deriving DecidableEq

/-- The surv_metrics payload dict the loader builds per row. -/
structure Payload where
  certification_course : Bool
  mark_10th : ℚ
  mark_12th : ℚ
  college_mark : ℚ
  daily_studying_time : DailyStudyTime
  study_minutes : Nat
  prefer_to_study_in : StudyPreference
  salary_expectation : Int
  likes_degree : Bool
  part_time_job : Bool
  financial_status : FinancialStatus
  willingness_percent : Int
  social_media_video : MediaVideoTime
  social_minutes : Nat
  travelling_time : TravelingTime
  travel_minutes : Nat
  stress_level : StressLevel
deriving DecidableEq

/-- Name-keyed cache probe (dept_by_name / hobby_by_name dictionaries). -/
def lookupName (table : List String) (name : String) : Except String String :=
  if table.contains name then Except.ok name
  else Except.error ("KeyError: " ++ name)

/-- The first half of the per-row try block, in source order: resolve
department, hobby and gender, parse height and weight, build the Student.
The loader appends this Student to its students list BEFORE parsing the
metrics of the same row. -/
def parseStudentPart (deptTable hobbyTable : List String) (r : Row) :
    Except String StudentRec := do
  let dept_name := normalize_str r.department
  let hobby_name := normalize_str r.hobby
  let dept ← lookupName deptTable dept_name
  let hobby ← lookupName hobbyTable hobby_name
  let gender ← mapLookup GENDER_MAP (normalize_str r.gender)
  let h ← parse_height_cm r.height
  let w ← parse_weight_kg r.weight
  pure ⟨gender, dept, h, w, hobby⟩

/-- The second half of the per-row try block: the three time-bucket
lookups followed by the surv_metrics dict, in source evaluation order. -/
def parseMetricsPart (r : Row) : Except String Payload := do
  let study ← mapLookup DAILY_STUDY_TIME_MAP (normalize_str r.daily_studying_time)
  let media ← mapLookup MEDIA_VIDEO_TIME_MAP (normalize_str r.social_media_video)
  let travel ← mapLookup TRAVELING_TIME_MAP (normalize_str r.travelling_time)
  let cert ← parse_bool r.certification_course
  let m10 ← parse_float r.mark_10th
  let m12 ← parse_float r.mark_12th
  let cm ← parse_float r.college_mark
  let pref ← mapLookup STUDY_PREFERENCE_MAP (normalize_str r.prefer_to_study_in)
  let sal ← parse_int r.salary_expectation
  let likes ← parse_bool r.likes_degree
  let ptj ← parse_bool r.part_time_job
  let fin ← mapLookup FINANCIAL_STATUS_MAP (normalize_str r.financial_status)
  let wp ← parse_percent r.willingness
  let stress ← mapLookup STRESS_LEVEL_MAP (normalize_str r.stress_level)
  pure ⟨cert, m10, m12, cm, study.1, study.2, pref, sal, likes, ptj, fin, wp,
        media.1, media.2, travel.1, travel.2, stress⟩

/-- The per-row loop of Command.handle.  A row failing in the student part
contributes nothing but an error; a row failing in the metrics part has
ALREADY appended its Student (the append is inside the try block before
the metrics parsing), so the students list grows while the payload list
does not.  Rows are enumerated from line number ind (the loader starts
at 2, line 1 being the header). -/
def processRows (deptTable hobbyTable : List String) :
    List Row → Nat → List StudentRec × List Payload × List String
  | [], _ => ([], [], [])
  | r :: rest, ind =>
      let tail := processRows deptTable hobbyTable rest (ind + 1)
      match parseStudentPart deptTable hobbyTable r with
      | Except.error e =>
          (tail.1, tail.2.1, ("Line " ++ toString ind ++ ": " ++ e) :: tail.2.2)
      | Except.ok s =>
          match parseMetricsPart r with
          | Except.error e =>
              (s :: tail.1, tail.2.1, ("Line " ++ toString ind ++ ": " ++ e) :: tail.2.2)
          | Except.ok p => (s :: tail.1, p :: tail.2.1, tail.2.2)

/-- Names mentioned by the rows, deduplicated and sorted (Python
sorted(set(...)) over the normalized cells). -/
def collectNames (cells : List String) : List String :=
  List.insertionSort strLeP (firstDedup (cells.map normalize_str))

/-- bulk_create with ignore_conflicts on the unique name column: existing
rows stay, new names are appended in list order, conflicts are skipped. -/
def upsertNames (existing : List String) (names : List String) : List String :=
  existing ++ names.filter (fun n => !(existing.contains n))

/-- Result of a completed load: the department and hobby tables, the
created Student rows, the created StudentMetrics rows (each a Student
paired with its payload), and the per-row error log. -/
structure Outcome where
  depts : List String
  hobbies : List String
  students : List StudentRec
  metrics : List (StudentRec × Payload)
  errors : List String
deriving DecidableEq

/-- Command.handle after the CSV has been read into rows: upsert the
department and hobby names, run the per-row loop, fail if nothing parsed,
bulk-create the students, then zip the created students with the payload
list to create the metrics rows. -/
def handle (existingDepts existingHobbies : List String) (rows : List Row) :
    Except String Outcome :=
  if rows.isEmpty then
    Except.ok ⟨existingDepts, existingHobbies, [], [], []⟩
  else
    let dept_names := collectNames (rows.map Row.department)
    let hobby_names := collectNames (rows.map Row.hobby)
    let depts := upsertNames existingDepts dept_names
    let hobbies := upsertNames existingHobbies hobby_names
    let res := processRows depts hobbies rows 2
    if res.1.isEmpty then
      Except.error "All rows failed to parse."
    else
      Except.ok ⟨depts, hobbies, res.1, res.1.zip res.2.1, res.2.2⟩

end Loader

/-! ## serializers.py : metrics write serializer and pk related field -/

namespace Serializers

open Contstants

/-- The minutes_from_enum helper: scan the lookup map in insertion order
and return the minute value of the first entry whose enum matches;
unsupported values raise a ValidationError. -/
def minutes_from_enum [DecidableEq α] (map : List (String × α × Nat)) (enum_value : α) :
    Except String Nat :=
  match map.find? (fun p => decide (p.2.1 = enum_value)) with
  | some p => Except.ok p.2.2
  | none => Except.error "Unsupported enum value"

/-- Validated-data dict of StudentMetricsWriteSerializer.  A field is some
when the client supplied it (partial update may omit any of them).  The
three minute fields are declared read_only in the serializer, so
to_internal_value never copies them from the client payload; validate
fills them from the enums. -/
structure MetricsAttrs where
  certification_course : Option Bool
  mark_10th : Option ℚ
  mark_12th : Option ℚ
  college_mark : Option ℚ
  daily_studying_time : Option DailyStudyTime
  prefer_to_study_in : Option StudyPreference
  salary_expectation : Option Int
  likes_degree : Option Bool
  part_time_job : Option Bool
  financial_status : Option FinancialStatus
  willingness_percent : Option Int
  social_media_video : Option MediaVideoTime
  travelling_time : Option TravelingTime
  stress_level : Option StressLevel
  study_minutes : Option Int
  social_minutes : Option Int
  travel_minutes : Option Int
deriving DecidableEq

/-- to_internal_value for the metrics write serializer: every writable
field is copied; the read_only minute fields are dropped. -/
def metricsToInternal (p : MetricsAttrs) : MetricsAttrs :=
  { p with study_minutes := none, social_minutes := none, travel_minutes := none }

/-- First conditional of the validate hook: when daily_studying_time is in
attrs, store the paired minutes computed from the lookup table. -/
def stepDaily (attrs : MetricsAttrs) : Except String MetricsAttrs :=
  match attrs.daily_studying_time with
  | some e => do
      let m ← minutes_from_enum DAILY_STUDY_TIME_MAP e
      pure { attrs with study_minutes := some (m : Int) }
  | none => pure attrs

/-- Second conditional of the validate hook, for social_media_video. -/
def stepMedia (attrs : MetricsAttrs) : Except String MetricsAttrs :=
  match attrs.social_media_video with
  | some e => do
      let m ← minutes_from_enum MEDIA_VIDEO_TIME_MAP e
      pure { attrs with social_minutes := some (m : Int) }
  | none => pure attrs

/-- Third conditional of the validate hook, for travelling_time. -/
def stepTravel (attrs : MetricsAttrs) : Except String MetricsAttrs :=
  match attrs.travelling_time with
  | some e => do
      let m ← minutes_from_enum TRAVELING_TIME_MAP e
      pure { attrs with travel_minutes := some (m : Int) }
  | none => pure attrs

/-- The validate hook: the three conditionals in source order. -/
def metricsValidate (attrs : MetricsAttrs) : Except String MetricsAttrs := do
  let a ← stepDaily attrs
  let b ← stepMedia a
  stepTravel b

/-- Deserialization followed by validation, as run_validation does. -/
def metricsRunValidation (p : MetricsAttrs) : Except String MetricsAttrs :=
  metricsValidate (metricsToInternal p)

/-- JSON value supplied for a PrimaryKeyRelatedField: a number or a string. -/
inductive PkInput
  | num (n : Int)
  | str (s : String)
deriving DecidableEq

/-- Coercion the related field applies before the queryset lookup: an int
passes through, a string must parse as a Python int. -/
def pkCoerce : PkInput → Option Int
  | .num n => some n
  | .str s => pyInt? s

/-- to_internal_value of PrimaryKeyRelatedField over a table of (id, name)
rows: coerce the datum to a pk, then queryset.get(pk=...); a TypeError or
ValueError reports incorrect type, a miss reports does-not-exist.  The
lookup never creates a record. -/
def pkGet (table : List (Nat × String)) (n : Int) : Except String (Nat × String) :=
  match table.find? (fun r => decide ((r.1 : Int) = n)) with
  | some row => Except.ok row
  | none => Except.error "Invalid pk - object does not exist."

def pkRelatedResolve (table : List (Nat × String)) (d : PkInput) :
    Except String (Nat × String) :=
  match pkCoerce d with
  | none => Except.error "Incorrect type. Expected pk value."
  | some n => pkGet table n

end Serializers

/-! ## analytics_views.py : query parsing and the analytics endpoints -/

namespace Analytics

/-- Query parameter boolean parser of analytics_views (source name has a
leading underscore): strip+lower, token tables with t and f included,
anything else means no filter. -/
def parse_bool (value : Option String) : Option Bool :=
  match value with
  | none => none
  | some v0 =>
      let val := pyLower (pyStrip v0)
      if val ∈ ["1", "true", "yes", "y", "t"] then some true
      else if val ∈ ["0", "false", "no", "n", "f"] then some false
      else none

/-- Query parameter int parser: none on absence, empty string or parse
failure. -/
def parse_int (value : Option String) : Option Int :=
  match value with
  | none => none
  | some v => if v = "" then none else pyInt? v

/-- Query parameter float parser: none on absence, empty string or parse
failure. -/
def parse_float (value : Option String) : Option ℚ :=
  match value with
  | none => none
  | some v => if v = "" then none else pyFloat? v

/-- The limit helper: parse, default when absent, clamp into [1, max]. -/
def limitOf (value : Option String) (default maxValue : Int) : Int :=
  match parse_int value with
  | none => default
  | some num => max 1 (min num maxValue)

/-- Python or-with-default on a query parameter (an absent or empty
string is falsy). -/
def orBlank (v : Option String) (d : String) : String :=
  match v with
  | none => d
  | some s => if s = "" then d else s

/-- A Department row. -/
structure ADept where
  id : Nat
  name : String
deriving DecidableEq

/-- A Student row joined with its one-to-one StudentMetrics row, the shape
every analytics query reads.  Department and hobby are referenced by
their unique names.  Enum-valued columns are stored as text. -/
structure AStudent where
  id : Nat
  gender : String
  department : String
  hobby : String
  height_cm : Nat
  weight_kg : Nat
  college_mark : ℚ
  salary_expectation : Nat
  willingness_percent : Nat
  daily_studying_time : String
  stress_level : String
  part_time_job : Bool
deriving DecidableEq

/-- Database state for the department summary: the Department table plus
the student/metrics join. -/
structure ADb where
  depts : List ADept
  students : List AStudent
deriving DecidableEq

/-- Department order for the summary (ORDER BY name). -/
def deptLeP (a b : ADept) : Prop := strLeP a.name b.name

instance : DecidableRel deptLeP := fun a b => instDecidableEqBool (strLe a.name b.name) true

instance : IsTotal ADept deptLeP := ⟨fun a b => strLeP_total a.name b.name⟩

instance : IsTrans ADept deptLeP := ⟨fun _ _ _ => strLeP_trans⟩

/-- One row of the department summary response. -/
structure SummaryRow where
  department_id : Nat
  department_name : String
  student_count : Nat
  avg_college_mark : Option ℚ
  avg_salary_expectation : Option ℚ
  stress_good : Nat
  stress_fair : Nat
  stress_bad : Nat
deriving DecidableEq

/-- departments_summary: one row per department ordered by name, counting
all students of the department plus the students at stress levels Good,
Fair and Bad, with rounded averages (null on empty groups). -/
def departments_summary (db : ADb) : List SummaryRow :=
  (List.insertionSort deptLeP db.depts).map (fun d =>
    let members := db.students.filter (fun s => s.department == d.name)
    { department_id := d.id
      department_name := d.name
      student_count := members.length
      avg_college_mark := Option.map pyRound2 (avgQ (members.map AStudent.college_mark))
      avg_salary_expectation :=
        Option.map pyRound2 (avgQ (members.map (fun s => (s.salary_expectation : ℚ))))
      stress_good := (members.filter (fun s => s.stress_level == "Good")).length
      stress_fair := (members.filter (fun s => s.stress_level == "Fair")).length
      stress_bad := (members.filter (fun s => s.stress_level == "Bad")).length })

/-- One row of the studytime performance response. -/
structure PerfRow where
  daily_studying_time : String
  student_count : Nat
  avg_college_mark : Option ℚ
  avg_willingness_percent : Option ℚ
deriving DecidableEq

/-- studytime_performance: group the student/metrics join by the stored
daily_studying_time text and order the groups by that text column
(ORDER BY on a text column, i.e. binary collation). -/
def studytime_performance (db : List AStudent) : List PerfRow :=
  (List.insertionSort strLeP (firstDedup (db.map AStudent.daily_studying_time))).map
    (fun k =>
      let members := db.filter (fun s => s.daily_studying_time == k)
      { daily_studying_time := k
        student_count := members.length
        avg_college_mark := Option.map pyRound2 (avgQ (members.map AStudent.college_mark))
        avg_willingness_percent :=
          Option.map pyRound2 (avgQ (members.map (fun s => (s.willingness_percent : ℚ)))) })

/-- Row order of the risk list: college mark ascending (the column is NOT
NULL, so the nulls_last modifier never fires), ties broken by pk. -/
def riskLeP (a b : AStudent) : Prop :=
  a.college_mark < b.college_mark ∨ (a.college_mark = b.college_mark ∧ a.id ≤ b.id)

instance : DecidableRel riskLeP := fun _ _ => inferInstanceAs (Decidable (_ ∨ _))

instance : IsTotal AStudent riskLeP := by
  constructor
  intro a b
  rcases lt_trichotomy a.college_mark b.college_mark with h | h | h
  · exact Or.inl (Or.inl h)
  · rcases Nat.le_total a.id b.id with hle | hle
    · exact Or.inl (Or.inr ⟨h, hle⟩)
    · exact Or.inr (Or.inr ⟨h.symm, hle⟩)
  · exact Or.inr (Or.inl h)

instance : IsTrans AStudent riskLeP := by
  constructor
  intro a b c hab hbc
  rcases hab with hab | ⟨hab, hab2⟩
  · rcases hbc with hbc | ⟨hbc, _⟩
    · exact Or.inl (hab.trans hbc)
    · exact Or.inl (hbc ▸ hab)
  · rcases hbc with hbc | ⟨hbc, hbc2⟩
    · exact Or.inl (hab ▸ hbc)
    · exact Or.inr ⟨hab.trans hbc, hab2.trans hbc2⟩

/-- One row of the risk list response. -/
structure RiskRow where
  id : Nat
  gender : String
  department : String
  hobby : String
  college_mark : ℚ
  stress_level : String
  part_time_job : Bool
deriving DecidableEq

/-- Shaping of a student row for the risk list response. -/
def shapeRisk (s : AStudent) : RiskRow :=
  ⟨s.id, s.gender, s.department, s.hobby, s.college_mark, s.stress_level, s.part_time_job⟩

/-- The risk list response: the echoed criteria and the rows. -/
structure RiskResponse where
  stress_level : String
  max_college_mark : ℚ
  limit : Int
  results : List RiskRow
deriving DecidableEq

/-- risk_list: resolve the criteria (stress level defaults to Bad, the
mark threshold to 60.0, the limit to 20 clamped into [1, 200]), filter by
stress level then by college mark, order by mark then pk, take the limit
and shape the rows. -/
def risk_list (db : List AStudent) (stressParam maxMarkParam limitParam : Option String) :
    RiskResponse :=
  let stress := orBlank stressParam "Bad"
  let maxMark := (parse_float maxMarkParam).getD 60
  let lim := limitOf limitParam 20 200
  let qs := (db.filter (fun s => s.stress_level == stress)).filter
    (fun s => decide (s.college_mark ≤ maxMark))
  let sorted := List.insertionSort riskLeP qs
  ⟨stress, maxMark, lim, (sorted.take lim.toNat).map shapeRisk⟩

/-- BMI of a student row: weight / (height/100)^2 computed by the
relational store in float arithmetic.  Modelled from the spec: the store
is configured outside this app, and per the spec a zero height produces
an undefined (NULL) result rather than a number; SQL comparisons against
NULL are false and Avg skips NULL. -/
def bmiOf (s : AStudent) : Option ℚ :=
  if s.height_cm = 0 then none
  else some (qdiv (s.weight_kg : ℚ)
    (qmul (qdiv (s.height_cm : ℚ) 100) (qdiv (s.height_cm : ℚ) 100)))

/-- Bucket counts and the average for one result group of the BMI
distribution. -/
structure BmiGroup where
  total : Nat
  underweight : Nat
  normal : Nat
  overweight : Nat
  obese : Nat
  avg_bmi : Option ℚ
deriving DecidableEq

/-- The annotate clause of bmi_distribution over one group of rows. -/
def bmiCounts (l : List AStudent) : BmiGroup :=
  { total := l.length
    underweight := (l.filter (fun s =>
      match bmiOf s with
      | some b => decide (b < mkRat 185 10)
      | none => false)).length
    normal := (l.filter (fun s =>
      match bmiOf s with
      | some b => decide (mkRat 185 10 ≤ b ∧ b < 25)
      | none => false)).length
    overweight := (l.filter (fun s =>
      match bmiOf s with
      | some b => decide (25 ≤ b ∧ b < 30)
      | none => false)).length
    obese := (l.filter (fun s =>
      match bmiOf s with
      | some b => decide (30 ≤ b)
      | none => false)).length
    avg_bmi := Option.map pyRound2 (avgQ (l.filterMap bmiOf)) }

/-- bmi_distribution: strictly validate the by parameter against gender,
department and the blank default; group accordingly (grouped queries
order by the key; the ungrouped branch runs values() with no fields, so
it groups by every selected column, one group per distinct full row) and
annotate each group with the bucket counts. -/
def bmi_distribution (db : List AStudent) (byParam : Option String) :
    Except String (List (Option String × BmiGroup)) :=
  let byv := pyLower (pyStrip (byParam.getD ""))
  if byv ∈ ["", "gender", "department"] then
    if byv = "gender" then
      Except.ok ((List.insertionSort strLeP (firstDedup (db.map AStudent.gender))).map
        (fun g => (some g, bmiCounts (db.filter (fun s => s.gender == g)))))
    else if byv = "department" then
      Except.ok ((List.insertionSort strLeP (firstDedup (db.map AStudent.department))).map
        (fun n => (some n, bmiCounts (db.filter (fun s => s.department == n)))))
    else
      Except.ok ((firstDedup db).map
        (fun r => ((none : Option String), bmiCounts (db.filter (fun s => s == r)))))
  else Except.error "Invalid by. Use gender or department."

end Analytics

/-! ## Concrete example data used by the claim theorems -/

/-- A CSV data row with the given department, hobby, height, weight,
college mark and stress cells; every other cell is a fixed valid value. -/
def csvRowOf (dept hobby h w cm stress : String) : Loader.Row :=
  { certification_course := "Yes"
    gender := "Male"
    department := dept
    height := h
    weight := w
    mark_10th := "80"
    mark_12th := "85"
    college_mark := cm
    hobby := hobby
    daily_studying_time := "0 - 30 minute"
    prefer_to_study_in := "Morning"
    salary_expectation := "50000"
    likes_degree := "Yes"
    willingness := "70%"
    social_media_video := "1 - 30 Minute"
    travelling_time := "0 - 30 minutes"
    stress_level := stress
    financial_status := "Good"
    part_time_job := "No" }

/-- A fully valid row (line 2 of the example CSV). -/
def lrowA : Loader.Row := csvRowOf "CSE" "Reading" "170" "70" "78" "Good"

/-- A row whose stress cell fails the STRESS_LEVEL_MAP lookup (line 3). -/
def lrowBad : Loader.Row := csvRowOf "CSE" "Reading" "160" "65" "66" "meh"

/-- A second fully valid row (line 4). -/
def lrowC : Loader.Row := csvRowOf "EEE" "Gaming" "150" "60" "55" "Bad"

/-- A valid row whose department cell is whitespace only. -/
def c9BlankRow : Loader.Row := csvRowOf " " "Reading" "170" "70" "78" "Good"

/-- The surv_metrics payload every cell of lrowA parses to. -/
def payloadW : Loader.Payload :=
  ⟨true, 80, 85, 78, .M0_30, 15, .MORNING, 50000, true, false, .GOOD, 70,
   .M1_30, 15, .M0_30, 15, .GOOD⟩

/-- The outcome of loading just lrowA into an empty database. -/
def c9OutW : Loader.Outcome :=
  { depts := ["cse"]
    hobbies := ["reading"]
    students := [⟨.MALE, "cse", 170, 70, "reading"⟩]
    metrics := [(⟨.MALE, "cse", 170, 70, "reading"⟩, payloadW)]
    errors := [] }

/-- An analytics student row with the given id, gender, department,
height, weight, college mark, stress and study-time bucket. -/
def aStu (i : Nat) (g dept : String) (h w : Nat) (cm : ℚ) (stress daily : String) :
    Analytics.AStudent :=
  { id := i, gender := g, department := dept, hobby := "Reading",
    height_cm := h, weight_kg := w, college_mark := cm,
    salary_expectation := 50000, willingness_percent := 70,
    daily_studying_time := daily, stress_level := stress, part_time_job := false }

/-- Risk-list fixture: marks 45 and 50 with Bad stress, mark 88 with Good. -/
def c8s45 : Analytics.AStudent := aStu 1 "Male" "CSE" 170 70 45 "Bad" "0-30m"

def c8s88 : Analytics.AStudent := aStu 2 "Female" "CSE" 160 50 88 "Good" "30-60m"

def c8s50 : Analytics.AStudent := aStu 3 "Male" "BCA" 180 90 50 "Bad" "0-30m"

def c8Db : List Analytics.AStudent := [c8s45, c8s88, c8s50]

/-- Two students in the 30-60m and 1-2h buckets. -/
def c4TwoDb : List Analytics.AStudent :=
  [aStu 1 "Male" "CSE" 170 70 45 "Bad" "30-60m",
   aStu 2 "Male" "CSE" 171 70 46 "Bad" "1-2h"]

/-- One student in each of the six study-time buckets. -/
def c4FullDb : List Analytics.AStudent :=
  [aStu 1 "Male" "CSE" 170 70 41 "Bad" "0-30m",
   aStu 2 "Male" "CSE" 171 70 42 "Bad" "30-60m",
   aStu 3 "Male" "CSE" 172 70 43 "Bad" "1-2h",
   aStu 4 "Male" "CSE" 173 70 44 "Bad" "2-3h",
   aStu 5 "Male" "CSE" 174 70 45 "Bad" "3-4h",
   aStu 6 "Male" "CSE" 175 70 46 "Bad" ">4h"]

/-- Rank of a stored bucket string in the DailyStudyTime declaration order. -/
def enumRankOf (s : String) : Nat :=
  (Contstants.DailyStudyTime.ordered.map Contstants.DailyStudyTime.value).findIdx (· == s)

/-- Department-summary fixture: two departments, one Good and one Bad
stress student. -/
def c6Db : Analytics.ADb :=
  ⟨[⟨1, "CSE"⟩, ⟨2, "BCA"⟩],
   [aStu 1 "Male" "CSE" 170 70 45 "Good" "0-30m",
    aStu 2 "Male" "BCA" 171 70 46 "Bad" "0-30m"]⟩

/-- A metrics write payload carrying all three enums plus client-supplied
minute values that must be ignored. -/
def c7Payload : Serializers.MetricsAttrs :=
  { certification_course := some true
    mark_10th := some 80
    mark_12th := some 85
    college_mark := some 78
    daily_studying_time := some .H1_2
    prefer_to_study_in := some .MORNING
    salary_expectation := some 50000
    likes_degree := some true
    part_time_job := some false
    financial_status := some .GOOD
    willingness_percent := some 70
    social_media_video := some .GT2H
    travelling_time := some .M90_120
    stress_level := some .GOOD
    study_minutes := some 999
    social_minutes := some 998
    travel_minutes := some 997 }

/-- A single student whose height is zero: its BMI is undefined. -/
def c10ZeroDb : List Analytics.AStudent := [aStu 1 "Male" "CSE" 0 70 45 "Bad" "0-30m"]

/-- A single ordinary student (170 cm, 70 kg, BMI about 24.22). -/
def c10DbW : List Analytics.AStudent := [aStu 1 "Male" "CSE" 170 70 45 "Bad" "0-30m"]

/-- The BMI distribution of c10DbW: one all-fields group, bucket normal. -/
def c10GsW : List (Option String × Analytics.BmiGroup) :=
  [(none, ⟨1, 0, 1, 0, 0, some (mkRat 2422 100)⟩)]

deriving instance DecidableEq for Except

/-! ## Claim theorems -/

/-- Claim C1 (code bug): evaluating the loader on a 3-row CSV whose middle
row (line 3) fails the stress-level lookup shows the row's error is
recorded, yet the Student built from that row (height 160) is still
bulk-created: the append to the students list precedes the metrics
parsing inside the per-row try block, so the failing row is not excluded
from insertion as the spec requires. -/
theorem c1_failed_row_student_still_created :
    (Loader.handle [] [] [lrowA, lrowBad, lrowC]).toOption.map
        (fun o => (o.errors, o.students.map Loader.StudentRec.height_cm))
      = some (["Line 3: KeyError: meh"], [170, 160, 150]) := by decide

/-- Claim C2 (code bug): on the same input, three Students are created but
only two payloads survive, and zip pairs them off by position: the student
of the failed line 3 (height 160) receives the metrics parsed from line 4
(college mark 55), and the student of line 4 (height 150) receives no
metrics at all - the one-to-one invariant and the own-row pairing both
fail after a completed load. -/
theorem c2_metrics_misaligned_after_failed_row :
    (Loader.handle [] [] [lrowA, lrowBad, lrowC]).toOption.map
        (fun o => (o.students.map Loader.StudentRec.height_cm,
          o.metrics.map (fun m => (m.1.height_cm, m.2.college_mark))))
      = some ([170, 160, 150], [(170, (78 : ℚ)), (160, (55 : ℚ))]) := by decide

/-- Claim C3 counterexample: supplying a department by name is rejected by
the PrimaryKeyRelatedField with an incorrect-type error - even when a
department of that name exists - in contradiction with the claimed
lookup-by-name with get-or-create. -/
theorem c3_counterexample :
    Serializers.pkRelatedResolve [(1, "CSE")] (Serializers.PkInput.str "Maths")
        = Except.error "Incorrect type. Expected pk value." ∧
    Serializers.pkRelatedResolve [(1, "CSE")] (Serializers.PkInput.str "CSE")
        = Except.error "Incorrect type. Expected pk value." := by decide

/-- Claim C3 as amended: the department and hobby references of the student
write serializer resolve exactly when the supplied datum coerces to an
integer primary key of an existing record, and a successful resolution
returns an existing row - nothing is ever created. -/
theorem c3_pk_resolves_only_existing_ids (table : List (Nat × String))
    (d : Serializers.PkInput) :
    ((∃ row, Serializers.pkRelatedResolve table d = Except.ok row) ↔
      (∃ n, Serializers.pkCoerce d = some n ∧ ∃ row ∈ table, (row.1 : Int) = n)) ∧
    (∀ row, Serializers.pkRelatedResolve table d = Except.ok row → row ∈ table) := by
  have hget : ∀ n row, Serializers.pkGet table n = Except.ok row →
      row ∈ table ∧ (row.1 : Int) = n := by
    intro n row h
    unfold Serializers.pkGet at h
    rcases hf : table.find? (fun r => decide ((r.1 : Int) = n)) with _ | row2
    · rw [hf] at h; cases h
    · rw [hf] at h
      cases h
      exact ⟨List.mem_of_find?_eq_some hf, by simpa using List.find?_some hf⟩
  constructor
  · constructor
    · rintro ⟨row, h⟩
      unfold Serializers.pkRelatedResolve at h
      rcases hc : Serializers.pkCoerce d with _ | n
      · simp only [hc] at h
        cases h
      · simp only [hc] at h
        rcases hget n row h with ⟨hmem, hid⟩
        exact ⟨n, rfl, row, hmem, hid⟩
    · rintro ⟨n, hn, row, hrow, hid⟩
      unfold Serializers.pkRelatedResolve
      simp only [hn]
      unfold Serializers.pkGet
      rcases hf : table.find? (fun r => decide ((r.1 : Int) = n)) with _ | row2
      · exfalso
        have := List.find?_eq_none.mp hf row hrow
        simp [hid] at this
      · simp only [hf]
        exact ⟨row2, rfl⟩
  · intro row h
    unfold Serializers.pkRelatedResolve at h
    rcases hc : Serializers.pkCoerce d with _ | n
    · simp only [hc] at h
      cases h
    · simp only [hc] at h
      exact (hget n row h).1

/-- Claim C3 witness: resolving pk 1 against a table holding (1, CSE)
succeeds and returns that existing row. -/
theorem c3_witness :
    Serializers.pkRelatedResolve [(1, "CSE")] (Serializers.PkInput.num 1)
        = Except.ok (1, "CSE") ∧
    (1, "CSE") ∈ [((1 : Nat), "CSE")] :=
  ⟨by decide, (c3_pk_resolves_only_existing_ids [(1, "CSE")] (.num 1)).2 (1, "CSE") (by decide)⟩

/-- Claim C4 counterexample: with students in the 30-60m and 1-2h buckets,
the endpoint returns the groups in the order 1-2h, 30-60m, although the
30-60m bucket precedes 1-2h in the DailyStudyTime declaration order - so
adjacent result groups do not follow the canonical enum ordering. -/
theorem c4_counterexample :
    ((Analytics.studytime_performance c4TwoDb).map Analytics.PerfRow.daily_studying_time
        = ["1-2h", "30-60m"]) ∧
    enumRankOf "30-60m" < enumRankOf "1-2h" := by decide

/-- Claim C5 counterexample: on the token t the analytics parser answers
true while the ingestion parser raises ValueError, so the two boolean
parsers do not agree. -/
theorem c5_counterexample :
    Analytics.parse_bool (some "t") = some true ∧
    Loader.parse_bool "t" = Except.error "Invalid boolean value: t" := by decide

/-- Claim C9 counterexample: loading a row whose department cell is
whitespace only creates a Department record whose name is the empty
string, which trims to the empty string - the non-emptiness half of the
claimed invariant fails. -/
theorem c9_counterexample :
    (Loader.handle [] [] [c9BlankRow]).toOption.map Loader.Outcome.depts = some [""] ∧
    pyStrip "" = "" := by decide

/-- Claim C10 counterexample: for a database state holding one student of
height zero, the single result group of the ungrouped BMI distribution
has total 1 while the four bucket counts sum to 0 (the BMI is undefined,
so no bucket counts the student). -/
theorem c10_counterexample :
    (Analytics.bmi_distribution c10ZeroDb none).toOption.map
        (fun gs => gs.map (fun g =>
          (g.2.underweight + g.2.normal + g.2.overweight + g.2.obese, g.2.total)))
      = some [(0, 1)] ∧ (0 : Nat) ≠ 1 := by decide

/-- Claim C4 as amended: for every database state the study-time groups
come out sorted (strictly, the keys being distinct) by the stored bucket
string in the binary text order, and on a state with all six buckets the
order is 0-30m, 1-2h, 2-3h, 3-4h, 30-60m, >4h - the lexicographic order,
not the enum declaration order. -/
theorem c4_lexicographic_order :
    (∀ db : List Analytics.AStudent,
        List.Pairwise
          (fun a b : Analytics.PerfRow =>
            strLe a.daily_studying_time b.daily_studying_time = true)
          (Analytics.studytime_performance db) ∧
        ((Analytics.studytime_performance db).map
            Analytics.PerfRow.daily_studying_time).Nodup) ∧
    (Analytics.studytime_performance c4FullDb).map Analytics.PerfRow.daily_studying_time
      = ["0-30m", "1-2h", "2-3h", "3-4h", "30-60m", ">4h"] := by
  constructor
  · intro db
    constructor
    · unfold Analytics.studytime_performance
      rw [List.pairwise_map]
      exact List.sorted_insertionSort strLeP
        (firstDedup (db.map Analytics.AStudent.daily_studying_time))
    · unfold Analytics.studytime_performance
      rw [List.map_map]
      have h2 : ((List.insertionSort strLeP
          (firstDedup (db.map Analytics.AStudent.daily_studying_time)))).Nodup :=
        ((List.perm_insertionSort strLeP _).nodup_iff).mpr (firstDedup_nodup _)
      exact h2.map_on (fun a _ b _ h => h)
  · decide

theorem pyStrip_mem (s : String) : ∀ c ∈ (pyStrip s).data, c ∈ s.data := by
  intro c hc
  unfold pyStrip at hc
  rw [List.mem_reverse] at hc
  have hc2 := (List.dropWhile_sublist _).subset hc
  rw [List.mem_reverse] at hc2
  exact (List.dropWhile_sublist _).subset hc2

theorem pyCasefold_eq_pyLower (s : String) (h : ∀ c ∈ s.data, c.toNat < 128) :
    pyCasefold s = pyLower s := by
  unfold pyCasefold pyLower
  congr 2
  apply List.map_congr_left
  intro c hc
  have hn := h c hc
  unfold pyCharFold pyCharLower
  have h1 : c.toNat ≠ 0x212A := by omega
  have h2 : c.toNat ≠ 0x1E9E := by omega
  have h3 : c.toNat ≠ 0xDF := by omega
  have h4 : c.toNat ≠ 0x17F := by omega
  rw [if_neg h1, if_neg h2, if_neg h3, if_neg h4, if_neg h1, if_neg h2]

/-- Claim C5 as amended: on every ASCII input string (where the str.lower
normalisation of the analytics parser and the str.casefold normalisation
of the ingestion parser coincide) whose normalised form is neither t nor
f, the two boolean parsers agree token for token - the analytics parser
answers some b exactly when the ingestion parser returns b, and answers
none (no filter) exactly when the ingestion parser raises ValueError.
They diverge beyond that scope in both directions: on t and f (see the
counterexample) and on non-ASCII spellings whose casefold - but not
lowercase - lands in a token table: the ingestion parser accepts the
long-s spelling of false that the analytics parser treats as no filter. -/
theorem c5_parsers_agree_ascii (s : String) (hascii : ∀ c ∈ s.data, c.toNat < 128)
    (ht : pyLower (pyStrip s) ≠ "t") (hf : pyLower (pyStrip s) ≠ "f") :
    ((∀ b, Analytics.parse_bool (some s) = some b ↔ Loader.parse_bool s = Except.ok b) ∧
     (Analytics.parse_bool (some s) = none ↔
       Loader.parse_bool s = Except.error ("Invalid boolean value: " ++ s))) ∧
    (Loader.parse_bool "falſe" = Except.ok false ∧
      Analytics.parse_bool (some "falſe") = none) := by
  refine ⟨?_, by decide, by decide⟩
  have hfold : pyCasefold (pyStrip s) = pyLower (pyStrip s) :=
    pyCasefold_eq_pyLower _ (fun c hc => hascii c (pyStrip_mem s c hc))
  unfold Analytics.parse_bool Loader.parse_bool
  rw [hfold]
  set v := pyLower (pyStrip s) with hv
  by_cases h1 : v ∈ (["1", "true", "yes", "y", "t"] : List String)
  · have h1L : v ∈ (["yes", "y", "true", "1"] : List String) := by
      rcases (by simpa using h1 : v = "1" ∨ v = "true" ∨ v = "yes" ∨ v = "y" ∨ v = "t") with
        h | h | h | h | h
      · simp [h]
      · simp [h]
      · simp [h]
      · simp [h]
      · exact absurd h ht
    constructor
    · intro b
      simp [h1, h1L]
    · simp [h1, h1L]
  · have h1L : v ∉ (["yes", "y", "true", "1"] : List String) := by
      intro hm
      apply h1
      rcases (by simpa using hm : v = "yes" ∨ v = "y" ∨ v = "true" ∨ v = "1") with
        h | h | h | h <;> simp [h]
    by_cases h2 : v ∈ (["0", "false", "no", "n", "f"] : List String)
    · have h2L : v ∈ (["no", "n", "false", "0"] : List String) := by
        rcases (by simpa using h2 : v = "0" ∨ v = "false" ∨ v = "no" ∨ v = "n" ∨ v = "f") with
          h | h | h | h | h
        · simp [h]
        · simp [h]
        · simp [h]
        · simp [h]
        · exact absurd h hf
      constructor
      · intro b
        simp [h1, h2, h1L, h2L]
      · simp [h1, h2, h1L, h2L]
    · have h2L : v ∉ (["no", "n", "false", "0"] : List String) := by
        intro hm
        apply h2
        rcases (by simpa using hm : v = "no" ∨ v = "n" ∨ v = "false" ∨ v = "0") with
          h | h | h | h <;> simp [h]
      constructor
      · intro b
        simp [h1, h2, h1L, h2L]
      · simp [h1, h2, h1L, h2L]

/-- Claim C5 witness: on the ASCII token yes both parsers answer true. -/
theorem c5_witness :
    Analytics.parse_bool (some "yes") = some true ↔
      Loader.parse_bool "yes" = Except.ok true :=
  ((c5_parsers_agree_ascii "yes" (by decide) (by decide) (by decide)).1).1 true

/-- Claim C6: in the department summary, under the precondition that every
stored stress level is one of the canonical enum values Good, Fabulous,
Bad, Awful, the Fair entry of every stress distribution is zero - the
filter value Fair matches no canonical value. -/
theorem c6_summary_fair_bucket_zero (db : Analytics.ADb)
    (h : ∀ s ∈ db.students, s.stress_level ∈ Contstants.stressLevelValues) :
    ∀ row ∈ Analytics.departments_summary db, row.stress_fair = 0 := by
  intro row hrow
  unfold Analytics.departments_summary at hrow
  rcases List.mem_map.mp hrow with ⟨d, _, hdrow⟩
  have hnil :
      (db.students.filter (fun s => s.department == d.name)).filter
        (fun s => s.stress_level == "Fair") = [] := by
    rw [List.filter_eq_nil_iff]
    intro s hs
    have hs2 : s ∈ db.students := (List.mem_filter.mp hs).1
    have hval := h s hs2
    simp only [Contstants.stressLevelValues, Contstants.StressLevel.value,
      List.mem_cons, List.not_mem_nil, or_false] at hval
    rcases hval with h1 | h1 | h1 | h1 <;> simp [h1]
  rw [← hdrow]
  simp only [hnil, List.length_nil]

/-- Claim C6 witness: on the two-department fixture every summary row has
a zero Fair entry. -/
theorem c6_witness :
    (Analytics.departments_summary c6Db).map Analytics.SummaryRow.stress_fair = [0, 0] := by
  have h := c6_summary_fair_bucket_zero c6Db (by decide)
  have hall : ∀ x ∈ (Analytics.departments_summary c6Db).map Analytics.SummaryRow.stress_fair,
      x = 0 := by
    intro x hx
    rcases List.mem_map.mp hx with ⟨row, hr, hxr⟩
    exact hxr ▸ h row hr
  have e := List.eq_replicate_of_mem hall
  have hlen : ((Analytics.departments_summary c6Db).map
      Analytics.SummaryRow.stress_fair).length = 2 := by
    rw [List.length_map]
    decide
  rw [hlen] at e
  exact e

theorem except_bind_ok (a : α) (f : α → Except ε β) : (Except.ok a >>= f) = f a := rfl

theorem daily_minutes_ok (e : Contstants.DailyStudyTime) :
    ∃ m, Serializers.minutes_from_enum Contstants.DAILY_STUDY_TIME_MAP e = Except.ok m := by
  cases e <;> exact ⟨_, rfl⟩

theorem media_minutes_ok (e : Contstants.MediaVideoTime) :
    ∃ m, Serializers.minutes_from_enum Contstants.MEDIA_VIDEO_TIME_MAP e = Except.ok m := by
  cases e <;> exact ⟨_, rfl⟩

theorem travel_minutes_ok (e : Contstants.TravelingTime) :
    ∃ m, Serializers.minutes_from_enum Contstants.TRAVELING_TIME_MAP e = Except.ok m := by
  cases e <;> exact ⟨_, rfl⟩

theorem stepDaily_sets (attrs out : Serializers.MetricsAttrs) (e : Contstants.DailyStudyTime)
    (he : attrs.daily_studying_time = some e)
    (h : Serializers.stepDaily attrs = Except.ok out) :
    ∃ m, Serializers.minutes_from_enum Contstants.DAILY_STUDY_TIME_MAP e = Except.ok m ∧
      out.study_minutes = some (m : Int) := by
  obtain ⟨m, hm⟩ := daily_minutes_ok e
  unfold Serializers.stepDaily at h
  simp only [he] at h
  rw [hm, except_bind_ok] at h
  cases h
  exact ⟨m, hm, rfl⟩

theorem stepDaily_preserves (attrs out : Serializers.MetricsAttrs)
    (h : Serializers.stepDaily attrs = Except.ok out) :
    out.social_media_video = attrs.social_media_video ∧
    out.travelling_time = attrs.travelling_time ∧
    out.social_minutes = attrs.social_minutes ∧
    out.travel_minutes = attrs.travel_minutes := by
  unfold Serializers.stepDaily at h
  rcases he : attrs.daily_studying_time with _ | e
  · simp only [he] at h
    cases h
    exact ⟨rfl, rfl, rfl, rfl⟩
  · simp only [he] at h
    obtain ⟨m, hm⟩ := daily_minutes_ok e
    rw [hm, except_bind_ok] at h
    cases h
    exact ⟨rfl, rfl, rfl, rfl⟩

theorem stepMedia_sets (attrs out : Serializers.MetricsAttrs) (e : Contstants.MediaVideoTime)
    (he : attrs.social_media_video = some e)
    (h : Serializers.stepMedia attrs = Except.ok out) :
    ∃ m, Serializers.minutes_from_enum Contstants.MEDIA_VIDEO_TIME_MAP e = Except.ok m ∧
      out.social_minutes = some (m : Int) := by
  obtain ⟨m, hm⟩ := media_minutes_ok e
  unfold Serializers.stepMedia at h
  simp only [he] at h
  rw [hm, except_bind_ok] at h
  cases h
  exact ⟨m, hm, rfl⟩

theorem stepMedia_preserves (attrs out : Serializers.MetricsAttrs)
    (h : Serializers.stepMedia attrs = Except.ok out) :
    out.study_minutes = attrs.study_minutes ∧
    out.travelling_time = attrs.travelling_time ∧
    out.travel_minutes = attrs.travel_minutes := by
  unfold Serializers.stepMedia at h
  rcases he : attrs.social_media_video with _ | e
  · simp only [he] at h
    cases h
    exact ⟨rfl, rfl, rfl⟩
  · simp only [he] at h
    obtain ⟨m, hm⟩ := media_minutes_ok e
    rw [hm, except_bind_ok] at h
    cases h
    exact ⟨rfl, rfl, rfl⟩

theorem stepTravel_sets (attrs out : Serializers.MetricsAttrs) (e : Contstants.TravelingTime)
    (he : attrs.travelling_time = some e)
    (h : Serializers.stepTravel attrs = Except.ok out) :
    ∃ m, Serializers.minutes_from_enum Contstants.TRAVELING_TIME_MAP e = Except.ok m ∧
      out.travel_minutes = some (m : Int) := by
  obtain ⟨m, hm⟩ := travel_minutes_ok e
  unfold Serializers.stepTravel at h
  simp only [he] at h
  rw [hm, except_bind_ok] at h
  cases h
  exact ⟨m, hm, rfl⟩

theorem stepTravel_preserves (attrs out : Serializers.MetricsAttrs)
    (h : Serializers.stepTravel attrs = Except.ok out) :
    out.study_minutes = attrs.study_minutes ∧
    out.social_minutes = attrs.social_minutes := by
  unfold Serializers.stepTravel at h
  rcases he : attrs.travelling_time with _ | e
  · simp only [he] at h
    cases h
    exact ⟨rfl, rfl⟩
  · simp only [he] at h
    obtain ⟨m, hm⟩ := travel_minutes_ok e
    rw [hm, except_bind_ok] at h
    cases h
    exact ⟨rfl, rfl⟩

/-- Claim C7: whenever a metrics write payload (create or partial update)
carries one of the time-bucket enums, the validated data stores exactly
the minute value the lookup table pairs with that enum, and any
client-supplied minute values are ignored: the validated result does not
depend on them (the fields are read-only and recomputed). -/
theorem c7_minutes_derived_from_enum (p out : Serializers.MetricsAttrs)
    (hok : Serializers.metricsRunValidation p = Except.ok out) :
    (∀ e, p.daily_studying_time = some e →
        ∃ m, Serializers.minutes_from_enum Contstants.DAILY_STUDY_TIME_MAP e = Except.ok m ∧
          out.study_minutes = some (m : Int)) ∧
    (∀ e, p.social_media_video = some e →
        ∃ m, Serializers.minutes_from_enum Contstants.MEDIA_VIDEO_TIME_MAP e = Except.ok m ∧
          out.social_minutes = some (m : Int)) ∧
    (∀ e, p.travelling_time = some e →
        ∃ m, Serializers.minutes_from_enum Contstants.TRAVELING_TIME_MAP e = Except.ok m ∧
          out.travel_minutes = some (m : Int)) ∧
    (∀ a b c, Serializers.metricsRunValidation
        { p with study_minutes := a, social_minutes := b, travel_minutes := c }
      = Except.ok out) := by
  have h4 : ∀ a b c, Serializers.metricsRunValidation
      { p with study_minutes := a, social_minutes := b, travel_minutes := c }
        = Except.ok out := fun a b c => hok
  unfold Serializers.metricsRunValidation Serializers.metricsValidate at hok
  rcases hs1 : Serializers.stepDaily (Serializers.metricsToInternal p) with e1 | a1
  · rw [hs1] at hok
    cases hok
  · rw [hs1, except_bind_ok] at hok
    rcases hs2 : Serializers.stepMedia a1 with e2 | a2
    · rw [hs2] at hok
      cases hok
    · rw [hs2, except_bind_ok] at hok
      refine ⟨?_, ?_, ?_, h4⟩
      · intro e he
        obtain ⟨m, hm, hset⟩ :=
          stepDaily_sets (Serializers.metricsToInternal p) a1 e he hs1
        refine ⟨m, hm, ?_⟩
        rw [(stepTravel_preserves a2 out hok).1, (stepMedia_preserves a1 a2 hs2).1, hset]
      · intro e he
        have he1 : a1.social_media_video = some e := by
          rw [(stepDaily_preserves (Serializers.metricsToInternal p) a1 hs1).1]
          exact he
        obtain ⟨m, hm, hset⟩ := stepMedia_sets a1 a2 e he1 hs2
        refine ⟨m, hm, ?_⟩
        rw [(stepTravel_preserves a2 out hok).2, hset]
      · intro e he
        have he2 : a2.travelling_time = some e := by
          rw [(stepMedia_preserves a1 a2 hs2).2.1,
            (stepDaily_preserves (Serializers.metricsToInternal p) a1 hs1).2.1]
          exact he
        obtain ⟨m, hm, hset⟩ := stepTravel_sets a2 out e he2 hok
        exact ⟨m, hm, hset⟩

/-- Claim C7 witness: validating a payload carrying all three enums plus
client minute values 999/998/997 stores the table minutes 90/150/105 for
1-2h, more-than-2h and 1.30-2h; the stored study minutes come from the
lookup table, not from the client. -/
theorem c7_witness :
    Serializers.metricsRunValidation c7Payload
        = Except.ok ({ c7Payload with study_minutes := some 90, social_minutes := some 150, travel_minutes := some 105 }) ∧
    ({ c7Payload with study_minutes := some 90, social_minutes := some 150, travel_minutes := some 105 } : Serializers.MetricsAttrs).study_minutes
      = some ((90 : Nat) : Int) := by
  have hok : Serializers.metricsRunValidation c7Payload
      = Except.ok ({ c7Payload with study_minutes := some 90, social_minutes := some 150, travel_minutes := some 105 }) := by decide
  refine ⟨hok, ?_⟩
  obtain ⟨h1, _, _, _⟩ := c7_minutes_derived_from_enum c7Payload _ hok
  obtain ⟨m, hm, hsm⟩ := h1 .H1_2 rfl
  have hm90 : m = 90 := Except.ok.inj (hm.symm.trans (by decide))
  rw [hsm, hm90]

/-- Claim C8: with no query parameters the risk list contains only
students with stress Bad and college mark at most 60, holds at most 20
rows, is sorted by college mark ascending with ties broken by id (the
mark column is NOT NULL so the nulls-last modifier is vacuous), contains
every qualifying student whenever fewer than 20 qualify, and never
contains a row with mark 88 and stress Good. -/
theorem c8_risk_list_default (db : List Analytics.AStudent) :
    (∀ x ∈ (Analytics.risk_list db none none none).results,
        x.stress_level = "Bad" ∧ x.college_mark ≤ 60) ∧
    (Analytics.risk_list db none none none).results.length ≤ 20 ∧
    List.Pairwise
      (fun a b : Analytics.RiskRow =>
        a.college_mark < b.college_mark ∨ (a.college_mark = b.college_mark ∧ a.id ≤ b.id))
      (Analytics.risk_list db none none none).results ∧
    (((db.filter (fun s => s.stress_level == "Bad")).filter
        (fun s => decide (s.college_mark ≤ (60 : ℚ)))).length < 20 →
      ∀ s ∈ db, s.stress_level = "Bad" → s.college_mark ≤ 60 →
        Analytics.shapeRisk s ∈ (Analytics.risk_list db none none none).results) ∧
    (∀ x ∈ (Analytics.risk_list db none none none).results,
        ¬(x.college_mark = 88 ∧ x.stress_level = "Good")) := by
  set Q := (db.filter (fun s => s.stress_level == "Bad")).filter
      (fun s => decide (s.college_mark ≤ (60 : ℚ))) with hQ
  have hres : (Analytics.risk_list db none none none).results
      = ((List.insertionSort Analytics.riskLeP Q).take 20).map Analytics.shapeRisk := rfl
  have hmem : ∀ x ∈ (Analytics.risk_list db none none none).results,
      ∃ s, s ∈ Q ∧ Analytics.shapeRisk s = x := by
    intro x hx
    rw [hres] at hx
    rcases List.mem_map.mp hx with ⟨s, hsTake, hxs⟩
    exact ⟨s, (List.mem_insertionSort _).mp ((List.take_sublist _ _).subset hsTake), hxs⟩
  have h1 : ∀ x ∈ (Analytics.risk_list db none none none).results,
      x.stress_level = "Bad" ∧ x.college_mark ≤ 60 := by
    intro x hx
    rcases hmem x hx with ⟨s, hs, hxs⟩
    rcases List.mem_filter.mp hs with ⟨hs1, hdec⟩
    rcases List.mem_filter.mp hs1 with ⟨_, hbeq⟩
    rw [← hxs]
    exact ⟨eq_of_beq hbeq, of_decide_eq_true hdec⟩
  refine ⟨h1, ?_, ?_, ?_, ?_⟩
  · rw [hres, List.length_map, List.length_take]
    exact min_le_left _ _
  · rw [hres, List.pairwise_map]
    have hp : List.Pairwise Analytics.riskLeP (List.insertionSort Analytics.riskLeP Q) :=
      List.sorted_insertionSort _ _
    exact List.Pairwise.sublist (List.take_sublist _ _) hp
  · intro hlen s hs hbad hmark
    rw [hres]
    have hq : s ∈ Q :=
      List.mem_filter.mpr ⟨List.mem_filter.mpr ⟨hs, by simp [hbad]⟩, by simpa using hmark⟩
    have hmem2 : s ∈ List.insertionSort Analytics.riskLeP Q :=
      (List.mem_insertionSort _).mpr hq
    have htake : (List.insertionSort Analytics.riskLeP Q).take 20
        = List.insertionSort Analytics.riskLeP Q := by
      apply List.take_of_length_le
      rw [List.length_insertionSort]
      omega
    rw [htake]
    exact List.mem_map_of_mem _ hmem2
  · intro x hx hcon
    have hb := (h1 x hx).1
    rw [hcon.2] at hb
    exact absurd hb (by decide)

/-- Claim C8 witness: in the fixture with marks 45 and 50 under Bad stress
and mark 88 under Good stress, the default risk list contains the rows of
the two qualifying students and not the row of the mark-88 student. -/
theorem c8_witness :
    Analytics.shapeRisk c8s45 ∈ (Analytics.risk_list c8Db none none none).results ∧
    Analytics.shapeRisk c8s50 ∈ (Analytics.risk_list c8Db none none none).results ∧
    Analytics.shapeRisk c8s88 ∉ (Analytics.risk_list c8Db none none none).results := by
  obtain ⟨h1, _, _, h4, _⟩ := c8_risk_list_default c8Db
  refine ⟨h4 (by decide) c8s45 (by decide) (by decide) (by decide),
          h4 (by decide) c8s50 (by decide) (by decide) (by decide), ?_⟩
  intro hmemb
  exact absurd (h1 _ hmemb).1 (by decide)

theorem collectNames_nodup (cells : List String) : (Loader.collectNames cells).Nodup :=
  ((List.perm_insertionSort strLeP _).nodup_iff).mpr (firstDedup_nodup _)

theorem upsertNames_nodup (existing names : List String)
    (h1 : existing.Nodup) (h2 : names.Nodup) :
    (Loader.upsertNames existing names).Nodup := by
  unfold Loader.upsertNames
  rw [List.nodup_append]
  refine ⟨h1, h2.filter _, ?_⟩
  intro x hx hxf
  rcases List.mem_filter.mp hxf with ⟨_, hnot⟩
  simp only [Bool.not_eq_true'] at hnot
  exact absurd hx (by simpa using hnot)

/-- Claim C9 as amended: a load that starts from department and hobby
tables with pairwise-distinct names completes with pairwise-distinct
names - the upsert inserts each collected name once and skips the ones
already present. (Non-emptiness of the names is NOT preserved, see the
counterexample.) -/
theorem c9_names_unique (existingD existingH : List String) (rows : List Loader.Row)
    (o : Loader.Outcome) (hD : existingD.Nodup) (hH : existingH.Nodup)
    (hok : Loader.handle existingD existingH rows = Except.ok o) :
    o.depts.Nodup ∧ o.hobbies.Nodup := by
  unfold Loader.handle at hok
  split at hok
  · cases hok
    exact ⟨hD, hH⟩
  · dsimp only [] at hok
    split at hok
    · cases hok
    · cases hok
      exact ⟨upsertNames_nodup _ _ hD (collectNames_nodup _),
             upsertNames_nodup _ _ hH (collectNames_nodup _)⟩

/-- Claim C9 witness: loading the single valid row lrowA into empty tables
creates the tables cse / reading, whose names are pairwise distinct. -/
theorem c9_witness :
    Loader.handle [] [] [lrowA] = Except.ok c9OutW ∧
    c9OutW.depts.Nodup ∧ c9OutW.hobbies.Nodup := by
  have hok : Loader.handle [] [] [lrowA] = Except.ok c9OutW := by decide
  exact ⟨hok, c9_names_unique [] [] [lrowA] c9OutW (by decide) (by decide) hok⟩

theorem filter_length_four (p1 p2 p3 p4 : α → Bool) (l : List α)
    (h : ∀ s ∈ l, (if p1 s then (1 : Nat) else 0) + (if p2 s then 1 else 0)
        + (if p3 s then 1 else 0) + (if p4 s then 1 else 0) = 1) :
    (l.filter p1).length + (l.filter p2).length + (l.filter p3).length
      + (l.filter p4).length = l.length := by
  induction l with
  | nil => simp
  | cons x t ih =>
    have hx := h x (by simp)
    have ht := ih (fun s hs => h s (by simp [hs]))
    simp only [List.filter_cons]
    by_cases h1 : p1 x <;> by_cases h2 : p2 x <;> by_cases h3 : p3 x <;> by_cases h4 : p4 x <;>
      simp [h1, h2, h3, h4] at hx ⊢ <;> omega

theorem bmi_buckets_partition (b : ℚ) :
    (if b < mkRat 185 10 then (1 : Nat) else 0)
      + (if mkRat 185 10 ≤ b ∧ b < 25 then (1 : Nat) else 0)
      + (if 25 ≤ b ∧ b < 30 then (1 : Nat) else 0)
      + (if 30 ≤ b then (1 : Nat) else 0) = 1 := by
  have c1 : (mkRat 185 10 : ℚ) < 25 := by decide
  have c2 : (25 : ℚ) < 30 := by decide
  rcases lt_or_le b (mkRat 185 10) with h1 | h1
  · have n2 : ¬(mkRat 185 10 ≤ b ∧ b < 25) := fun h => absurd h.1 (not_le.mpr h1)
    have n3 : ¬((25 : ℚ) ≤ b ∧ b < 30) :=
      fun h => absurd (le_trans c1.le h.1) (not_le.mpr h1)
    have n4 : ¬((30 : ℚ) ≤ b) :=
      fun h => absurd (le_trans (c1.le.trans c2.le) h) (not_le.mpr h1)
    simp [h1, n2, n3, n4]
  · rcases lt_or_le b 25 with h2 | h2
    · have n1 : ¬(b < mkRat 185 10) := not_lt.mpr h1
      have n3 : ¬((25 : ℚ) ≤ b ∧ b < 30) := fun h => absurd h.1 (not_le.mpr h2)
      have n4 : ¬((30 : ℚ) ≤ b) := fun h => absurd (le_trans c2.le h) (not_le.mpr h2)
      simp [n1, h1, h2, n3, n4]
    · rcases lt_or_le b 30 with h3 | h3
      · have n1 : ¬(b < mkRat 185 10) := not_lt.mpr (c1.le.trans h2)
        have n2 : ¬(mkRat 185 10 ≤ b ∧ b < 25) := fun h => absurd h.2 (not_lt.mpr h2)
        have n4 : ¬((30 : ℚ) ≤ b) := not_le.mpr h3
        simp [n1, n2, h2, h3, n4]
      · have n1 : ¬(b < mkRat 185 10) := not_lt.mpr ((c1.le.trans c2.le).trans h3)
        have n2 : ¬(mkRat 185 10 ≤ b ∧ b < 25) :=
          fun h => absurd h.2 (not_lt.mpr (c2.le.trans h3))
        have n3 : ¬((25 : ℚ) ≤ b ∧ b < 30) := fun h => absurd h.2 (not_lt.mpr h3)
        simp [n1, n2, n3, h3]

theorem bmiCounts_sum (l : List Analytics.AStudent) (h : ∀ s ∈ l, s.height_cm ≠ 0) :
    (Analytics.bmiCounts l).underweight + (Analytics.bmiCounts l).normal
      + (Analytics.bmiCounts l).overweight + (Analytics.bmiCounts l).obese
      = (Analytics.bmiCounts l).total := by
  unfold Analytics.bmiCounts
  apply filter_length_four
  intro s hs
  have hb : Analytics.bmiOf s = some (qdiv (s.weight_kg : ℚ)
      (qmul (qdiv (s.height_cm : ℚ) 100) (qdiv (s.height_cm : ℚ) 100))) := by
    unfold Analytics.bmiOf
    rw [if_neg (h s hs)]
  simp only [hb, decide_eq_true_eq]
  simpa using bmi_buckets_partition
    (qdiv (s.weight_kg : ℚ) (qmul (qdiv (s.height_cm : ℚ) 100) (qdiv (s.height_cm : ℚ) 100)))

/-- Claim C10 as amended: whenever every student in the database has a
nonzero height, every result group of the BMI distribution (for every
accepted grouping value) satisfies underweight + normal + overweight +
obese = total: the four half-open ranges partition the defined BMI
values.  (A zero-height student has an undefined BMI and would be counted
in total but in no bucket, see the counterexample.) -/
theorem c10_bmi_bucket_sum (db : List Analytics.AStudent) (byParam : Option String)
    (gs : List (Option String × Analytics.BmiGroup))
    (hok : Analytics.bmi_distribution db byParam = Except.ok gs)
    (h0 : ∀ s ∈ db, s.height_cm ≠ 0) :
    ∀ g ∈ gs, g.2.underweight + g.2.normal + g.2.overweight + g.2.obese = g.2.total := by
  unfold Analytics.bmi_distribution at hok
  dsimp only [] at hok
  split at hok
  · split at hok
    · cases hok
      intro g hg
      rcases List.mem_map.mp hg with ⟨k, _, hkg⟩
      rw [← hkg]
      exact bmiCounts_sum _ (fun s hs => h0 s (List.mem_filter.mp hs).1)
    · split at hok
      · cases hok
        intro g hg
        rcases List.mem_map.mp hg with ⟨k, _, hkg⟩
        rw [← hkg]
        exact bmiCounts_sum _ (fun s hs => h0 s (List.mem_filter.mp hs).1)
      · cases hok
        intro g hg
        rcases List.mem_map.mp hg with ⟨k, _, hkg⟩
        rw [← hkg]
        exact bmiCounts_sum _ (fun s hs => h0 s (List.mem_filter.mp hs).1)
  · cases hok

/-- Claim C10 witness: on the one-student fixture (170 cm, 70 kg) the
single result group has total 1 and its bucket counts sum to the total
(the student lands in the normal bucket). -/
theorem c10_witness :
    Analytics.bmi_distribution c10DbW none = Except.ok c10GsW ∧
    c10GsW.all (fun g =>
      g.2.underweight + g.2.normal + g.2.overweight + g.2.obese == g.2.total) = true := by
  have hok : Analytics.bmi_distribution c10DbW none = Except.ok c10GsW := by decide
  refine ⟨hok, ?_⟩
  rw [List.all_eq_true]
  intro g hg
  simpa using c10_bmi_bucket_sum c10DbW none c10GsW hok (by decide) g hg
